import Mathlib

/-!
Shallow embedding of the grin control-plane core: the REST endpoint
implementations of `src/api/src/endpoints.rs` (ChainApi, OutputApi) and the
CLI binary `src/src/bin/grin.rs` (config resolution, wallet subcommands).
External collaborators (the chain store, the REST error type, hex utility,
serde parsing, the crypto primitives) are modelled from the spec where their
code is not part of the two source files.
-/

namespace Grin

/-- Read-only projection of the current chain state (`chain::Tip`), supplied
by the external chain-store collaborator; only its identity matters here. -/
structure Tip where
  height : Nat
deriving DecidableEq, Repr

/-- An output included in the chain (`core::core::Output`), treated as an
opaque value identified by its commitment bytes. -/
structure Output where
  commit : List Nat
deriving DecidableEq, Repr

/-- Modelled from the spec: the REST error kinds of the `rest` module (not
under src/): `Internal`, `Argument`/`InvalidArgument`, `NotFound` — the
machine-distinguishable kinds carried by error responses. -/
inductive Error where
  | Argument : String → Error
  | Internal : String → Error
  | NotFound : Error
deriving DecidableEq, Repr

/-- Result type of endpoint operations (`ApiResult<T>` in the rest module). -/
abbrev ApiResult (T : Type) := Except Error T

/-- Modelled from the spec: the `ChainStore`-shaped read interface of the
external chain collaborator (the `chain` crate is not under src/). Lookups
by identifier are well-defined and may fail (e.g. with a not-found failure);
failures carry a message string, matching `e.to_string()` at the call sites. -/
structure ChainStore where
  head : Except String Tip
  get_output_by_commit : List Nat → Except String Output

/-- Value of a single hex digit, lower or upper case. -/
def hexVal (c : Char) : Option Nat :=
  if '0' ≤ c ∧ c ≤ '9' then some (c.toNat - '0'.toNat)
  else if 'a' ≤ c ∧ c ≤ 'f' then some (c.toNat - 'a'.toNat + 10)
  else if 'A' ≤ c ∧ c ≤ 'F' then some (c.toNat - 'A'.toNat + 10)
  else none

/-- Decode a hex character sequence two digits per byte; any non-hex
character makes the whole decode fail. -/
def hexBytes : List Char → Option (List Nat)
  | [] => some []
  | [c] => (hexVal c).map (fun v => [v])
  | c₁ :: c₂ :: rest =>
    match hexVal c₁, hexVal c₂, hexBytes rest with
    | some h, some l, some bs => some ((16 * h + l) :: bs)
    | _, _, _ => none

/-- Modelled from the spec: `util::from_hex` (the util crate is not under
src/) — parses a hex string into commitment bytes and fails on a non-hex
string where a commitment is required. -/
def from_hex (s : String) : Option (List Nat) :=
  hexBytes s.data

/-- Embedding of `ChainApi::get` (src/api/src/endpoints.rs, lines 52–54):
returns `self.chain_store.head()`, mapping any store error to
`Error::Internal(e.to_string())`; the identifier argument is unused. -/
def chainApiGet (store : ChainStore) (id : String) : ApiResult Tip :=
  match store.head with
  | Except.ok t => Except.ok t
  | Except.error e => Except.error (Error.Internal e)

/-- Embedding of `OutputApi::get` (src/api/src/endpoints.rs, lines 74–80):
hex-decodes the identifier (failing with `Error::Argument` via `?`), then
looks the commitment up in the chain store, mapping any store error to
`Error::Internal(e.to_string())`. -/
def outputApiGet (store : ChainStore) (id : String) : ApiResult Output :=
  match from_hex id with
  | none => Except.error (Error.Argument ("Not a valid commitment: " ++ id))
  | some c =>
    match store.get_output_by_commit c with
    | Except.ok o => Except.ok o
    | Except.error e => Except.error (Error.Internal e)

/-- Seeding strategy for peer discovery (`grin::Seeding`). -/
inductive Seeding where
  | WebStatic : Seeding
  | List : List String → Seeding
deriving DecidableEq, Repr

/-- The resolved server configuration (`grin::ServerConfig`), with the
fields the CLI touches: `p2p_config.port`, `mining_config.enable_mining`,
`seeding_type`, `cuckoo_size`. -/
structure ServerConfig where
  port : Nat
  enable_mining : Bool
  seeding_type : Seeding
  cuckoo_size : Nat
deriving DecidableEq, Repr

/-- Embedding of `default_config` (src/src/bin/grin.rs, lines 234–240):
cuckoo size 12 and static-web seeding; the `..Default::default()` part is
modelled from the spec (port 0 placeholder, mining disabled). -/
def default_config : ServerConfig :=
  { port := 0
    enable_mining := false
    seeding_type := Seeding.WebStatic
    cuckoo_size := 12 }

/-- Modelled from the spec: the on-disk JSON configuration document as
structured data whose fields override the defaults field by field (the
serde shape of `grin::ServerConfig` is not under src/). -/
structure FileConfig where
  port : Option Nat := none
  enable_mining : Option Bool := none
  seeding_type : Option Seeding := none
  cuckoo_size : Option Nat := none
deriving DecidableEq, Repr

/-- Modelled from the spec: let the parsed file's fields override the
defaults, field by field. -/
def applyFile (d : ServerConfig) (f : FileConfig) : ServerConfig :=
  { port := f.port.getD d.port
    enable_mining := f.enable_mining.getD d.enable_mining
    seeding_type := f.seeding_type.getD d.seeding_type
    cuckoo_size := f.cuckoo_size.getD d.cuckoo_size }

/-- Embedding of `read_config` (src/src/bin/grin.rs, lines 222–232). The
filesystem state is passed explicitly: `none` means no config file at the
well-known per-user location (defaults apply); `some none` means the file
exists but `serde_json::from_str(..).unwrap()` fails, a panic modelled as
`Except.error`; `some (some f)` means the file parses to `f`. -/
def read_config (file : Option (Option FileConfig)) : Except String ServerConfig :=
  match file with
  | none => Except.ok default_config
  | some none => Except.error "panic: failed to parse config file"
  | some (some f) => Except.ok (applyFile default_config f)

/-- Value of a single decimal digit. -/
def decVal (c : Char) : Option Nat :=
  if '0' ≤ c ∧ c ≤ '9' then some (c.toNat - '0'.toNat) else none

/-- Parse a run of decimal digits left to right onto an accumulator; any
non-digit makes the whole parse fail. -/
def decNat : List Char → Nat → Option Nat
  | [], acc => some acc
  | c :: rest, acc =>
    match decVal c with
    | none => none
    | some d => decNat rest (10 * acc + d)

/-- Modelled from the spec: `port.parse()` at the port field's integer type
(the field's Rust type lives in the grin crate, not under src/): a non-empty
string of decimal digits within the field's range, anything else fails. -/
def parsePort (s : String) : Option Nat :=
  match s.data with
  | [] => none
  | cs =>
    match decNat cs 0 with
    | none => none
    | some n => if n < 65536 then some n else none

/-- Embedding of the `--port` block of `server_command` (src/src/bin/grin.rs,
lines 146–148): an explicit `--port` overrides `p2p_config.port`;
`port.parse().unwrap()` panics on a bad value, modelled as `Except.error`. -/
def apply_port_override (c : ServerConfig) (cliPort : Option String) :
    Except String ServerConfig :=
  match cliPort with
  | none => Except.ok c
  | some p =>
    match parsePort p with
    | none => Except.error "panic: could not parse port"
    | some n => Except.ok { c with port := n }

/-- Embedding of the `--mine` block of `server_command` (src/src/bin/grin.rs,
lines 149–151): an explicit `--mine` force-enables mining. -/
def apply_mine_override (c : ServerConfig) (cliMine : Bool) : ServerConfig :=
  if cliMine then { c with enable_mining := true } else c

/-- Embedding of the `--seed` block of `server_command` (src/src/bin/grin.rs,
lines 152–154): explicit `--seed` values replace the seeding strategy with
`Seeding::List` of exactly the CLI-supplied values. -/
def apply_seed_override (c : ServerConfig) (cliSeeds : Option (List String)) :
    ServerConfig :=
  match cliSeeds with
  | none => c
  | some seeds => { c with seeding_type := Seeding.List seeds }

/-- Embedding of the configuration wrangling of `server_command`
(src/src/bin/grin.rs, lines 141–154): start from `read_config()` (a panic
there aborts), then apply the `--port`, `--mine` and `--seed` overrides in
source order. -/
def server_command (file : Option (Option FileConfig)) (cliPort : Option String)
    (cliMine : Bool) (cliSeeds : Option (List String)) : Except String ServerConfig :=
  match read_config file with
  | Except.error e => Except.error e
  | Except.ok c =>
    match apply_port_override c cliPort with
    | Except.error e => Except.error e
    | Except.ok c =>
      Except.ok (apply_seed_override (apply_mine_override c cliMine) cliSeeds)

/-- UTF bytes of a passphrase, as `hd_seed.as_bytes()`; code points suffice
for the determinism and factoring statements made here. -/
def strBytes (s : String) : List Nat :=
  s.data.map Char.toNat

/-- The 32-byte seed of `wallet_command` (src/src/bin/grin.rs, lines
188–191): the SHA3-256 hash of the passphrase bytes and nothing else — no
salt, no iteration count. The hash itself (tiny_keccak) is an external
primitive passed as a parameter. -/
def walletSeed (sha3 : List Nat → List Nat) (pass : String) : List Nat :=
  sha3 (strBytes pass)

/-- The extended-key derivation of `wallet_command` (src/src/bin/grin.rs,
lines 193–195): `ExtendedKey::from_seed` applied to the seed; the secp
context and key internals are external, so derivation is a parameter that
may fail (the `.expect` there panics on failure). -/
def walletDerive {K : Type} (sha3 : List Nat → List Nat)
    (from_seed : List Nat → Option K) (pass : String) : Option K :=
  from_seed (walletSeed sha3 pass)

/-- The wallet subcommand as parsed by clap: `receive`, or `send` with its
positional amount (present or absent) and optional `--dest` flag. -/
inductive WalletSub where
  | receive : WalletSub
  | send : Option String → Option String → WalletSub
deriving DecidableEq, Repr

/-- The wallet action the subcommand dispatches to, parameterized by the
extended-key type: registering the receiving endpoint and serving, or
calling `issue_send_tx(key, amount, dest)`. -/
inductive WalletAction (K : Type) where
  | receiveServe : K → WalletAction K
  | sendTx : K → Nat → String → WalletAction K
deriving DecidableEq, Repr

/-- Modelled from the spec: the amount parses as a whole number
(`.parse().expect(..)`; the amount's Rust type lives in the wallet crate,
not under src/): a non-empty string of decimal digits. -/
def parseAmount (s : String) : Option Nat :=
  match s.data with
  | [] => none
  | cs => decNat cs 0

/-- Embedding of `wallet_command` (src/src/bin/grin.rs, lines 184–220):
`--pass` is required (`.expect` panics, modelled as `Except.error`) and the
extended key is derived before any subcommand is examined; `receive` serves
the receiving endpoint with the key; `send` requires a parseable amount and
calls `issue_send_tx` with destination `--dest` if supplied, else the
`"stdout"` sentinel. -/
def wallet_command {K : Type} (sha3 : List Nat → List Nat)
    (from_seed : List Nat → Option K) (pass : Option String)
    (sub : WalletSub) : Except String (WalletAction K) :=
  match pass with
  | none => Except.error "Wallet passphrase required."
  | some p =>
    match walletDerive sha3 from_seed p with
    | none => Except.error "Error deriving extended key from seed."
    | some key =>
      match sub with
      | WalletSub.receive => Except.ok (WalletAction.receiveServe key)
      | WalletSub.send amtOpt destOpt =>
        match amtOpt with
        | none => Except.error "Amount to send required"
        | some a =>
          match parseAmount a with
          | none => Except.error "Could not parse amount as a whole number."
          | some amt =>
            Except.ok (WalletAction.sendTx key amt (destOpt.getD "stdout"))

/-- Where `issue_send_tx` delivers a transaction, as the spec describes the
wallet crate collaborator (not under src/). -/
inductive SendDest where
  | standardOut : SendDest
  | remote : String → SendDest
deriving DecidableEq, Repr

/-- Modelled from the spec: `issue_send_tx` writes the constructed
transaction to the standard output stream for the default `"stdout"`
sentinel, and otherwise issues it to the remote address. -/
def sendDestination (dest : String) : SendDest :=
  if dest = "stdout" then SendDest.standardOut else SendDest.remote dest

/-- A concrete backing store holding no outputs: every commitment lookup
fails with the store's not-found failure, per the spec's chain-store
contract. -/
def emptyStore : ChainStore :=
  { head := Except.ok { height := 0 }
    get_output_by_commit := fun _ => Except.error "Not found." }

/-- Claim C1 (counterexample): on a store with no outputs and the
hex-decodable identifier "00", `OutputApi::get` returns `Internal` (the
store's not-found failure mapped by `map_err`), not `NotFound`. -/
theorem output_absent_internal_cex :
    outputApiGet emptyStore "00" = Except.error (Error.Internal "Not found.") ∧
    outputApiGet emptyStore "00" ≠ Except.error Error.NotFound := by
  refine ⟨rfl, ?_⟩
  intro hco
  rw [show outputApiGet emptyStore "00" =
    Except.error (Error.Internal "Not found.") from rfl] at hco
  injection hco with h₂
  exact Error.noConfusion h₂

/-- Claim C1 (amended): for every hex-decodable commitment identifier whose
lookup fails in the backing store, `OutputApi::get` returns an `Internal`
error wrapping the store's failure message — never `NotFound`. -/
theorem output_absent_is_internal (store : ChainStore) (h : String)
    (c : List Nat) (e : String)
    (hhex : from_hex h = some c)
    (habs : store.get_output_by_commit c = Except.error e) :
    outputApiGet store h = Except.error (Error.Internal e) ∧
    outputApiGet store h ≠ Except.error Error.NotFound := by
  have hg : outputApiGet store h = Except.error (Error.Internal e) := by
    simp only [outputApiGet, hhex, habs]
  refine ⟨hg, ?_⟩
  rw [hg]
  intro hco
  simp only [Except.error.injEq] at hco
  exact Error.noConfusion hco

/-- Claim C1 (witness for the amended theorem): the empty store with
identifier "00", decoding to commitment bytes `[0]`. -/
theorem output_absent_is_internal_witness :
    from_hex "00" = some [0] ∧
    emptyStore.get_output_by_commit [0] = Except.error "Not found." ∧
    (outputApiGet emptyStore "00" = Except.error (Error.Internal "Not found.") ∧
     outputApiGet emptyStore "00" ≠ Except.error Error.NotFound) :=
  ⟨rfl, rfl, output_absent_is_internal emptyStore "00" [0] "Not found." rfl rfl⟩

/-- Claim C2: for every identifier that is not valid hex, `OutputApi::get`
returns an `Argument` (InvalidArgument) error, and the result is the same
for every backing store — the store's lookup is never consulted. -/
theorem output_nonhex_argument (store store₂ : ChainStore) (h : String)
    (hbad : from_hex h = none) :
    outputApiGet store h =
      Except.error (Error.Argument ("Not a valid commitment: " ++ h)) ∧
    outputApiGet store h = outputApiGet store₂ h := by
  have k : ∀ st : ChainStore, outputApiGet st h =
      Except.error (Error.Argument ("Not a valid commitment: " ++ h)) := by
    intro st
    unfold outputApiGet
    rw [hbad]
  exact ⟨k store, (k store).trans (k store₂).symm⟩

/-- Claim C2 (witness): the non-hex identifier "zz" against the empty store
and a store where every lookup succeeds. -/
theorem output_nonhex_argument_witness :
    from_hex "zz" = none ∧
    (outputApiGet emptyStore "zz" =
      Except.error (Error.Argument ("Not a valid commitment: " ++ "zz")) ∧
     outputApiGet emptyStore "zz" =
      outputApiGet ⟨Except.ok ⟨1⟩, fun c => Except.ok ⟨c⟩⟩ "zz") :=
  ⟨rfl, output_nonhex_argument emptyStore ⟨Except.ok ⟨1⟩, fun c => Except.ok ⟨c⟩⟩ "zz" rfl⟩

/-- Claim C3: CLI overrides strictly dominate file values, which strictly
dominate defaults: with `--port p` parsing to `n` the resolved port is `n`;
with no `--port` and a file the resolved port is the file's port (or the
default when the file leaves it unset); with no file it is the default; and
parsing a config file overrides the defaults field by field. -/
theorem config_precedence (f : FileConfig) (mine : Bool)
    (seeds : Option (List String)) (p : String) (n : Nat)
    (c₁ c₂ c₃ : ServerConfig)
    (hp : parsePort p = some n)
    (h₁ : server_command (some (some f)) (some p) mine seeds = Except.ok c₁)
    (h₂ : server_command (some (some f)) none mine seeds = Except.ok c₂)
    (h₃ : server_command none none mine seeds = Except.ok c₃) :
    c₁.port = n ∧
    c₂.port = f.port.getD default_config.port ∧
    c₃.port = default_config.port ∧
    read_config (some (some f)) = Except.ok (applyFile default_config f) := by
  refine ⟨?_, ?_, ?_, rfl⟩
  · simp only [server_command, read_config, apply_port_override, hp,
      Except.ok.injEq] at h₁
    subst h₁
    cases mine <;> cases seeds <;> rfl
  · simp only [server_command, read_config, apply_port_override,
      Except.ok.injEq] at h₂
    subst h₂
    cases mine <;> cases seeds <;> rfl
  · simp only [server_command, read_config, apply_port_override,
      Except.ok.injEq] at h₃
    subst h₃
    cases mine <;> cases seeds <;> rfl

/-- Claim C3 (witness): default port 0 placeholder, file sets port 10, CLI
passes port 20 — the three resolved ports are 20, 10 and 0. -/
theorem config_precedence_witness :
    parsePort "20" = some 20 ∧
    server_command (some (some { port := some 10 })) (some "20") false none =
      Except.ok ⟨20, false, Seeding.WebStatic, 12⟩ ∧
    server_command (some (some { port := some 10 })) none false none =
      Except.ok ⟨10, false, Seeding.WebStatic, 12⟩ ∧
    server_command none none false none = Except.ok default_config ∧
    ((⟨20, false, Seeding.WebStatic, 12⟩ : ServerConfig).port = 20 ∧
     (⟨10, false, Seeding.WebStatic, 12⟩ : ServerConfig).port =
       (Option.some 10).getD default_config.port ∧
     default_config.port = default_config.port ∧
     read_config (some (some { port := some 10 })) =
       Except.ok (applyFile default_config { port := some 10 })) :=
  ⟨rfl, rfl, rfl, rfl,
   config_precedence { port := some 10 } false none "20" 20
     ⟨20, false, Seeding.WebStatic, 12⟩ ⟨10, false, Seeding.WebStatic, 12⟩
     default_config rfl rfl rfl rfl⟩

/-- Claim C4: whenever config resolution succeeds with a non-empty sequence
of `--seed` CLI values, the resolved seeding type is exactly `List` of those
values, whatever the file or defaults configured. -/
theorem cli_seeds_replace (file : Option (Option FileConfig))
    (cliPort : Option String) (mine : Bool) (seeds : List String)
    (c : ServerConfig)
    (hne : seeds ≠ [])
    (hok : server_command file cliPort mine (some seeds) = Except.ok c) :
    c.seeding_type = Seeding.List seeds := by
  unfold server_command at hok
  split at hok
  · exact Except.noConfusion hok
  · split at hok
    · exact Except.noConfusion hok
    · simp only [Except.ok.injEq] at hok
      subst hok
      rfl

/-- Claim C4 (witness): file configures `List(["a.com","b.com"])`, the CLI
passes seed "c.com"; the resolved seeding type is `List(["c.com"])`. -/
theorem cli_seeds_replace_witness :
    (["c.com"] : List String) ≠ [] ∧
    server_command
      (some (some { seeding_type := some (Seeding.List ["a.com", "b.com"]) }))
      none false (some ["c.com"]) =
      Except.ok ⟨0, false, Seeding.List ["c.com"], 12⟩ ∧
    (⟨0, false, Seeding.List ["c.com"], 12⟩ : ServerConfig).seeding_type =
      Seeding.List ["c.com"] :=
  ⟨by decide, rfl,
   cli_seeds_replace
     (some (some { seeding_type := some (Seeding.List ["a.com", "b.com"]) }))
     none false ["c.com"] ⟨0, false, Seeding.List ["c.com"], 12⟩
     (by decide) rfl⟩

/-- Claim C5: secret derivation is deterministic — equal passphrases give
equal seeds and equal extended keys, and the derivation factors exactly
through the hash of the passphrase bytes with no salt or iteration count. -/
theorem derive_deterministic {K : Type} (sha3 : List Nat → List Nat)
    (from_seed : List Nat → Option K) (p₁ p₂ : String)
    (hp : p₁ = p₂) :
    walletSeed sha3 p₁ = walletSeed sha3 p₂ ∧
    walletDerive sha3 from_seed p₁ = walletDerive sha3 from_seed p₂ ∧
    walletDerive sha3 from_seed p₁ = from_seed (sha3 (strBytes p₁)) := by
  subst hp
  exact ⟨rfl, rfl, rfl⟩

/-- Claim C5 (witness): two invocations on the passphrase "passphrase" with
concrete hash and key-derivation functions agree. -/
theorem derive_deterministic_witness :
    ("passphrase" : String) = "passphrase" ∧
    (walletSeed id "passphrase" = walletSeed id "passphrase" ∧
     walletDerive id some "passphrase" =
       (walletDerive id some "passphrase" : Option (List Nat)) ∧
     walletDerive id some "passphrase" = some (id (strBytes "passphrase"))) :=
  ⟨rfl, derive_deterministic id some "passphrase" "passphrase" rfl⟩

/-- Claim C6: a config file that exists but does not parse is fatal —
`read_config` (and hence `server_command`, for any CLI flags) aborts with
the parse panic and never returns any configuration, in particular not the
defaults. -/
theorem malformed_config_fatal (cliPort : Option String) (mine : Bool)
    (seeds : Option (List String)) :
    read_config (some none) = Except.error "panic: failed to parse config file" ∧
    server_command (some none) cliPort mine seeds =
      Except.error "panic: failed to parse config file" ∧
    ∀ c : ServerConfig, server_command (some none) cliPort mine seeds ≠ Except.ok c := by
  refine ⟨rfl, rfl, fun c hc => ?_⟩
  exact Except.noConfusion hc

/-- Claim C6 (witness): with no CLI flags, a malformed file aborts config
resolution with the parse panic. -/
theorem malformed_config_fatal_witness :
    read_config (some none) = Except.error "panic: failed to parse config file" ∧
    server_command (some none) none false none =
      Except.error "panic: failed to parse config file" :=
  ⟨(malformed_config_fatal none false none).1,
   (malformed_config_fatal none false none).2.1⟩

/-- Claim C7: a wallet subcommand invocation with no passphrase fails with
the missing-passphrase panic before any wallet action (receive registration
or send issuance) is produced. -/
theorem missing_pass_fatal {K : Type} (sha3 : List Nat → List Nat)
    (from_seed : List Nat → Option K) (sub : WalletSub) :
    wallet_command sha3 from_seed none sub =
      Except.error "Wallet passphrase required." ∧
    ∀ a : WalletAction K, wallet_command sha3 from_seed none sub ≠ Except.ok a := by
  refine ⟨rfl, fun a hc => ?_⟩
  exact Except.noConfusion hc

/-- Claim C7 (witness): both the receive and the send subcommand fail with
the missing-passphrase panic when no passphrase is supplied. -/
theorem missing_pass_fatal_witness :
    wallet_command id some (K := List Nat) none WalletSub.receive =
      Except.error "Wallet passphrase required." ∧
    wallet_command id some (K := List Nat) none (WalletSub.send (some "5") none) =
      Except.error "Wallet passphrase required." :=
  ⟨(missing_pass_fatal id some WalletSub.receive).1,
   (missing_pass_fatal id some (WalletSub.send (some "5") none)).1⟩

/-- Claim C8: for a wallet send with a valid amount, the destination is the
CLI flag's value when supplied and the "stdout" sentinel (write the
transaction to standard output) when absent — a default-vs-override
decision made exactly once. -/
theorem send_dest_selection {K : Type} (sha3 : List Nat → List Nat)
    (from_seed : List Nat → Option K) (p : String) (key : K)
    (amtStr : String) (amt : Nat) (destOpt : Option String)
    (hkey : from_seed (sha3 (strBytes p)) = some key)
    (hamt : parseAmount amtStr = some amt) :
    wallet_command sha3 from_seed (some p) (WalletSub.send (some amtStr) destOpt) =
      Except.ok (WalletAction.sendTx key amt (destOpt.getD "stdout")) ∧
    (destOpt = none →
      wallet_command sha3 from_seed (some p) (WalletSub.send (some amtStr) destOpt) =
        Except.ok (WalletAction.sendTx key amt "stdout") ∧
      sendDestination "stdout" = SendDest.standardOut) ∧
    (∀ addr : String, destOpt = some addr →
      wallet_command sha3 from_seed (some p) (WalletSub.send (some amtStr) destOpt) =
        Except.ok (WalletAction.sendTx key amt addr)) := by
  have hw : wallet_command sha3 from_seed (some p) (WalletSub.send (some amtStr) destOpt) =
      Except.ok (WalletAction.sendTx key amt (destOpt.getD "stdout")) := by
    simp only [wallet_command, walletDerive, walletSeed, hkey, hamt]
  refine ⟨hw, fun hd => ?_, fun addr hd => ?_⟩
  · subst hd
    exact ⟨hw, by simp [sendDestination]⟩
  · subst hd
    exact hw

/-- Claim C8 (witness): passphrase "p", amount "5", destination
"dest.example" supplied on the CLI, with concrete hash and key-derivation. -/
theorem send_dest_selection_witness :
    (some (id (strBytes "p")) : Option (List Nat)) = some [112] ∧
    parseAmount "5" = some 5 ∧
    (wallet_command id some (some "p") (WalletSub.send (some "5") (some "dest.example")) =
       Except.ok (WalletAction.sendTx [112] 5 ((some "dest.example").getD "stdout")) ∧
     ((some "dest.example" : Option String) = none →
       wallet_command id some (some "p") (WalletSub.send (some "5") (some "dest.example")) =
         Except.ok (WalletAction.sendTx [112] 5 "stdout") ∧
       sendDestination "stdout" = SendDest.standardOut) ∧
     (∀ addr : String, (some "dest.example" : Option String) = some addr →
       wallet_command id some (some "p") (WalletSub.send (some "5") (some "dest.example")) =
         Except.ok (WalletAction.sendTx [112] 5 addr))) :=
  ⟨rfl, rfl,
   send_dest_selection id some "p" [112] "5" 5 (some "dest.example") rfl rfl⟩

/-- Claim C9: `ChainApi::get` ignores its identifier argument — for any two
identifiers and a fixed store the results coincide, and the result is the
store's head on success or `Internal` wrapping the same store failure. -/
theorem chain_tip_ignores_id (store : ChainStore) (id₁ id₂ : String) :
    chainApiGet store id₁ = chainApiGet store id₂ ∧
    (∀ t : Tip, store.head = Except.ok t → chainApiGet store id₁ = Except.ok t) ∧
    (∀ e : String, store.head = Except.error e →
      chainApiGet store id₁ = Except.error (Error.Internal e)) := by
  refine ⟨rfl, fun t ht => ?_, fun e he => ?_⟩
  · unfold chainApiGet
    rw [ht]
  · unfold chainApiGet
    rw [he]

/-- Claim C9 (witness): on the empty store, two distinct identifiers give
the same answer, namely the chain head. -/
theorem chain_tip_ignores_id_witness :
    chainApiGet emptyStore "a" = chainApiGet emptyStore "b" ∧
    chainApiGet emptyStore "a" = Except.ok ⟨0⟩ :=
  ⟨(chain_tip_ignores_id emptyStore "a" "b").1,
   (chain_tip_ignores_id emptyStore "a" "b").2.1 ⟨0⟩ rfl⟩

/-- Claim C10: when the config file stage succeeds but the `--port` value
does not parse at the port field's type, `server_command` aborts with the
parse panic and never falls back to the file or default port. -/
theorem bad_port_panics (file : Option (Option FileConfig)) (c : ServerConfig)
    (p : String) (mine : Bool) (seeds : Option (List String))
    (hfile : read_config file = Except.ok c)
    (hbad : parsePort p = none) :
    server_command file (some p) mine seeds =
      Except.error "panic: could not parse port" ∧
    ∀ c₂ : ServerConfig, server_command file (some p) mine seeds ≠ Except.ok c₂ := by
  have hs : server_command file (some p) mine seeds =
      Except.error "panic: could not parse port" := by
    simp only [server_command, hfile, apply_port_override, hbad]
  refine ⟨hs, fun c₂ hc => ?_⟩
  rw [hs] at hc
  exact Except.noConfusion hc

/-- Claim C10 (witness): no config file and the unparseable port value
"abc". -/
theorem bad_port_panics_witness :
    read_config none = Except.ok default_config ∧
    parsePort "abc" = none ∧
    server_command none (some "abc") false none =
      Except.error "panic: could not parse port" :=
  ⟨rfl, rfl,
   (bad_port_panics none default_config "abc" false none rfl rfl).1⟩

end Grin
